import Mathlib

/-!
Verification of the rule-based email triage engine in
`src/mcp_email_classifier/server.py` (class `MCPServer`): category
classification, confidence, urgency extraction, sentiment analysis,
response suggestion, and the tool dispatcher with its HTTP wrapper.

The Python functions are pure string/keyword heuristics; they are embedded
as executable Lean functions.  Python `needle in haystack` is substring
containment, embedded as `containsSub`; `str.lower()` is embedded as a
per-character `Char.toLower` map (ASCII case folding; the source keyword
lists are already lower-case).  Python floats are embedded as `ℚ`: every
constant involved (0.7, 0.15, 0.95) and every comparison in the claims is
exact at this scale, and the claimed interval bounds are insensitive to
float rounding.  The wall-clock timestamp `datetime.now().isoformat()` is
embedded as an explicit `now : String` argument.
-/

/-- Substring test on character lists: does `hay` contain `needle` as a
contiguous sublist?  Embeds Python `needle in hay`. -/
def subList (needle : List Char) : List Char → Bool
  | [] => needle.isEmpty
  | c :: rest => needle.isPrefixOf (c :: rest) || subList needle rest

/-- Python `needle in hay` on strings. -/
def containsSub (hay needle : String) : Bool :=
  subList needle.data hay.data

/-- Python `s.lower()` (ASCII case folding; see module comment). -/
def lowerStr (s : String) : String :=
  String.mk (s.data.map Char.toLower)

/-- Python `str.split(sep)` for a one-character separator, on character
lists.  Like Python (and unlike a splitter that drops empty parts), the
result always has `count sep + 1` elements and keeps empty parts. -/
def splitChar (sep : Char) : List Char → List (List Char)
  | [] => [[]]
  | c :: rest =>
      match splitChar sep rest with
      | [] => [[]]
      | p :: ps => if c = sep then [] :: p :: ps else (c :: p) :: ps

/-! ## Keyword lists (verbatim from `_determine_category`,
`_calculate_confidence`, `extract_urgency`, `analyze_sentiment`) -/

def urgent_indicators : List String :=
  ["urgent", "asap", "emergency", "crítico", "importante", "deadline", "hoy"]

def spam_indicators : List String :=
  ["offer", "win", "prize", "gratis", "descuento", "click here", "limited time"]

def newsletter_indicators : List String :=
  ["newsletter", "bulletin", "update", "digest"]

def support_indicators : List String :=
  ["help", "soporte", "support", "problem", "issue", "error"]

def urgency_keywords : List String :=
  ["urgent", "asap", "emergency", "immediately", "now", "hoy", "inmediato", "crítico"]

def deadline_keywords : List String :=
  ["deadline", "by", "before", "hasta", "para el"]

def positive_words : List String :=
  ["gracias", "thanks", "excelente", "great", "good", "bueno", "aprecio", "feliz"]

def negative_words : List String :=
  ["problema", "problem", "error", "bad", "mal", "enojado", "angry", "frustrado"]

/-- Embeds `MCPServer._determine_category(content, sender)`: four indicator sets
checked in fixed order, then a sender fallback, then the default. -/
def determine_category (content sender : String) : String :=
  if urgent_indicators.any (fun k => containsSub content k) then "URGENT"
  else if spam_indicators.any (fun k => containsSub content k) then "SPAM"
  else if newsletter_indicators.any (fun k => containsSub content k) then "NEWSLETTER"
  else if support_indicators.any (fun k => containsSub content k) then "SUPPORT"
  else if containsSub (lowerStr sender) "newsletter" then "NEWSLETTER"
  else "IMPORTANT"

/-- The per-category strong-indicator lists (the `strong_indicators` dict in
`_calculate_confidence`; `dict.get(category, [])` on any other key). -/
def strongIndicators : String → List String
  | "URGENT" => ["urgent", "asap", "emergency"]
  | "SPAM" => ["win", "prize", "free"]
  | "NEWSLETTER" => ["newsletter", "unsubscribe"]
  | "SUPPORT" => ["help", "soporte", "problem"]
  | _ => []

/-- Embeds `MCPServer._calculate_confidence(content, category)`: base 0.7, plus
0.15 per strong indicator contained in `content`, capped at 0.95. -/
def calculate_confidence (content category : String) : ℚ :=
  let base : ℚ := 0.7
  let c := (strongIndicators category).foldl
    (fun acc ind => if containsSub content ind then acc + 0.15 else acc) base
  min c 0.95

/-- Result record of `classify_email` (the returned dict). -/
structure ClassificationResult where
  category : String
  confidence : ℚ
  analysis_time : String
  sender_domain : String
deriving Repr, DecidableEq

/-- Embeds `MCPServer.classify_email(email_content, sender, subject)`.  The
`datetime.now().isoformat()` timestamp is the explicit `now` argument.
`sender.split('@')[-1] if '@' in sender else "unknown"` is embedded with
`splitChar` and `getLastD` (the split result is never empty, so `[-1]`
is its last element). -/
def classify_email (email_content sender subject now : String) : ClassificationResult :=
  let content_lower := lowerStr (email_content ++ " " ++ subject)
  let category := determine_category content_lower sender
  { category := category
    confidence := calculate_confidence content_lower category
    analysis_time := now
    sender_domain :=
      if sender.data.contains '@' then
        String.mk ((splitChar '@' sender.data).getLastD [])
      else "unknown" }

/-- Result record of `extract_urgency`.  The source dict also carries a
`deadlines` list produced by `re.findall` over three date patterns on the
raw content; no claim concerns that list and it feeds into no other field,
so the regex date extraction is not modelled here. -/
structure UrgencyResult where
  urgency_score : ℕ
  has_urgency : Bool
  urgency_level : String
deriving Repr, DecidableEq

/-- The raw (uncapped) urgency score of `extract_urgency`: +1 per urgency
keyword contained in the lower-cased content, +2 per deadline keyword. -/
def rawUrgencyScore (content_lower : String) : ℕ :=
  deadline_keywords.foldl
    (fun acc k => if containsSub content_lower k then acc + 2 else acc)
    (urgency_keywords.foldl
      (fun acc k => if containsSub content_lower k then acc + 1 else acc) 0)

/-- Embeds `MCPServer.extract_urgency(email_content)`: the reported score is the
raw score capped at 10, while `has_urgency` and `urgency_level` are
computed from the raw score, as in the source. -/
def extract_urgency (email_content : String) : UrgencyResult :=
  let score := rawUrgencyScore (lowerStr email_content)
  { urgency_score := min score 10
    has_urgency := decide (score > 0)
    urgency_level :=
      if score > 5 then "HIGH" else if score > 2 then "MEDIUM" else "LOW" }

/-- Result record of `analyze_sentiment`. -/
structure SentimentResult where
  sentiment : String
  positive_indicators : ℕ
  negative_indicators : ℕ
  confidence : ℚ
deriving Repr, DecidableEq

/-- Embeds `MCPServer.analyze_sentiment(email_content)`: presence counts of the
positive and negative keyword lists (`sum(1 for w in ws if w in content)`),
majority vote, confidence `|p - n| / max(1, p + n)`. -/
def analyze_sentiment (email_content : String) : SentimentResult :=
  let content_lower := lowerStr email_content
  let p := (positive_words.filter (fun w => containsSub content_lower w)).length
  let n := (negative_words.filter (fun w => containsSub content_lower w)).length
  { sentiment :=
      if p > n then "POSITIVE" else if n > p then "NEGATIVE" else "NEUTRAL"
    positive_indicators := p
    negative_indicators := n
    confidence := |(p : ℚ) - (n : ℚ)| / (max 1 (p + n) : ℕ) }

/-- Result record of `suggest_response`. -/
structure ResponseSuggestion where
  suggested_response : String
  category : String
  tone : String
  response_length : ℕ
deriving Repr, DecidableEq

/-- The nested `responses` dict of `suggest_response`:
`responses.get(category, {}).get(tone, fallback)` without the fallback. -/
def responseTable (category tone : String) : Option String :=
  if category = "URGENT" then
    if tone = "professional" then
      some "He recibido su mensaje urgente. Lo revisaré inmediatamente y le responderé en un plazo máximo de 2 horas."
    else if tone = "friendly" then
      some "¡Gracias por el mensaje! Lo reviso ahora mismo y te respondo pronto."
    else none
  else if category = "SUPPORT" then
    if tone = "professional" then
      some "Gracias por contactar a soporte. Hemos recibido su consulta y le asignaremos un ticket. Le responderemos en un plazo de 24 horas."
    else if tone = "friendly" then
      some "¡Hola! Recibimos tu consulta de soporte. Te ayudaremos lo antes posible."
    else none
  else if category = "IMPORTANT" then
    if tone = "professional" then
      some "He recibido su mensaje. Lo revisaré y le daré seguimiento apropiado durante el día."
    else if tone = "friendly" then
      some "¡Gracias por tu mensaje! Lo revisaré hoy mismo y te respondo."
    else none
  else if category = "NEWSLETTER" then
    if tone = "professional" then
      some "Gracias por la información. La revisaré cuando tenga disponibilidad."
    else if tone = "friendly" then
      some "¡Gracias por el newsletter! Lo leeré cuando tenga un momento."
    else none
  else none

/-- Embeds `MCPServer.suggest_response(email_content, category, tone)`; the
`email_content` argument is accepted and unused, as in the source. -/
def suggest_response (email_content category tone : String) : ResponseSuggestion :=
  let _ := email_content
  let suggested :=
    (responseTable category tone).getD "He recibido su mensaje. Le responderé pronto."
  { suggested_response := suggested
    category := category
    tone := tone
    response_length := suggested.length }

/-! ## Tool dispatcher (`register_tools`, `handle_request`) and the
`POST /tools/{tool_name}` endpoint (`call_tool`). -/

/-- The names registered by `MCPServer.register_tools`, in registration
order; `handle_request` looks tools up by exact name in this registry. -/
def registryNames : List String :=
  ["classify_email", "suggest_response", "extract_urgency", "analyze_sentiment"]

/-- The required keyword parameters of each registered tool (the
positional-or-keyword parameters without a default in the Python
signatures). -/
def requiredParams : String → List String
  | "classify_email" => ["email_content", "sender", "subject"]
  | "suggest_response" => ["email_content", "category"]
  | "extract_urgency" => ["email_content"]
  | "analyze_sentiment" => ["email_content"]
  | _ => []

/-- The optional keyword parameters of each registered tool (parameters
with a default: only `tone` of `suggest_response`). -/
def optionalParams : String → List String
  | "suggest_response" => ["tone"]
  | _ => []

/-- Python keyword-argument binding: `f(**kwargs)` succeeds iff every
required parameter key is present and every given key is an expected
parameter; otherwise the call raises `TypeError`. -/
def bindOk (required optional : List String) (params : List (String × String)) : Bool :=
  required.all (fun k => (params.map Prod.fst).contains k)
    && params.all (fun p => (required ++ optional).contains p.1)

/-- Looks up a keyword argument by name, with a default (used for `tone`,
whose Python default is "professional"; for required parameters the
binding check guarantees presence and the default is unreachable). -/
def getParamD (params : List (String × String)) (k dflt : String) : String :=
  ((params.find? (fun p => p.1 == k)).map Prod.snd).getD dflt

/-- The possible result payloads of the four registered tools, plus the
error dict returned by `handle_request` on a registry miss. -/
inductive ToolOutput where
  | classification (r : ClassificationResult)
  | suggestion (r : ResponseSuggestion)
  | urgency (r : UrgencyResult)
  | sentiment (r : SentimentResult)
  | errorVal (msg : String)
deriving Repr, DecidableEq

/-- Runs a registered tool on its bound keyword arguments
(`self.tools[tool_name](**kwargs)` after a successful binding). -/
def runTool (t : String) (params : List (String × String)) (now : String) : ToolOutput :=
  if t = "classify_email" then
    .classification (classify_email (getParamD params "email_content" "")
      (getParamD params "sender" "") (getParamD params "subject" "") now)
  else if t = "suggest_response" then
    .suggestion (suggest_response (getParamD params "email_content" "")
      (getParamD params "category" "") (getParamD params "tone" "professional"))
  else if t = "extract_urgency" then
    .urgency (extract_urgency (getParamD params "email_content" ""))
  else if t = "analyze_sentiment" then
    .sentiment (analyze_sentiment (getParamD params "email_content" ""))
  else .errorVal "unreachable"

/-- Embeds `MCPServer.handle_request(tool_name, **kwargs)`.  On a registry
miss it returns the error dict (a normal return value, `Except.ok`); on a
hit it calls the tool with the forwarded keyword arguments, and a binding
mismatch raises `TypeError`, embedded as `Except.error`.  The function is
total: every outcome is one of these two constructors. -/
def handle_request (t : String) (params : List (String × String)) (now : String) :
    Except String ToolOutput :=
  if registryNames.contains t then
    if bindOk (requiredParams t) (optionalParams t) params then
      .ok (runTool t params now)
    else
      .error ("TypeError: bad arguments for " ++ t)
  else
    .ok (.errorVal ("Tool " ++ t ++ " not found"))

/-- An HTTP response of the FastAPI wrapper: either the
`{"success": True, "result": ...}` envelope or the error response that
FastAPI produces from a raised `HTTPException(status, detail)`. -/
inductive HttpResponse where
  | success (result : ToolOutput)
  | failure (status : ℕ) (detail : String)
deriving Repr, DecidableEq

/-- Embeds the `POST /tools/{tool_name}` endpoint (`call_tool` in the
source): it forwards to `handle_request` inside `try`, wrapping a normal
return in the success envelope and catching any exception into
`HTTPException(500, detail)`, which surfaces to the caller as an error
response rather than a crash. -/
def call_tool (t : String) (params : List (String × String)) (now : String) : HttpResponse :=
  match handle_request t params now with
  | .ok r => .success r
  | .error e => .failure 500 e

/-! ## Theorems -/

/-- C1: for every email_content, sender and subject (and timestamp), the
category returned by `classify_email` via `determine_category` is one of
exactly the five labels URGENT, SPAM, NEWSLETTER, SUPPORT, IMPORTANT. -/
theorem classify_email_category_closed (ec sender subj now : String) :
    (classify_email ec sender subj now).category ∈
      ["URGENT", "SPAM", "NEWSLETTER", "SUPPORT", "IMPORTANT"] := by
  show determine_category _ _ ∈ _
  unfold determine_category
  split_ifs <;> simp

/-- C2: whenever the lower-cased subject+body concatenation contains an
urgent-indicator keyword, `determine_category` (hence `classify_email`)
returns URGENT — the urgent tier is checked first, so this holds in
particular when a spam-indicator keyword is also present. -/
theorem classify_email_urgent_priority (ec sender subj now : String)
    (hu : urgent_indicators.any
      (fun k => containsSub (lowerStr (ec ++ " " ++ subj)) k) = true) :
    (classify_email ec sender subj now).category = "URGENT" := by
  show determine_category _ _ = _
  unfold determine_category
  rw [if_pos hu]

/-- Witness for C2 at a concrete input containing both the urgent keyword
"urgent" and the spam keyword "win". -/
theorem classify_email_urgent_priority_w :
    urgent_indicators.any
      (fun k => containsSub (lowerStr ("urgent win" ++ " " ++ "")) k) = true
  ∧ spam_indicators.any
      (fun k => containsSub (lowerStr ("urgent win" ++ " " ++ "")) k) = true
  ∧ (classify_email "urgent win" "x@y.com" "" "t0").category = "URGENT" :=
  ⟨by decide, by decide,
    classify_email_urgent_priority "urgent win" "x@y.com" "" "t0" (by decide)⟩

/-- Helper for C3: the level string and urgency flag of `extract_urgency`,
computed from the raw score, satisfy the threshold characterization stated
over the capped (reported) score. -/
theorem urgency_fields_iff (n : ℕ) :
    ((if n > 5 then "HIGH" else if n > 2 then "MEDIUM" else "LOW") = "HIGH"
      ↔ 5 < min n 10)
  ∧ ((if n > 5 then "HIGH" else if n > 2 then "MEDIUM" else "LOW") = "MEDIUM"
      ↔ (2 < min n 10 ∧ min n 10 ≤ 5))
  ∧ ((if n > 5 then "HIGH" else if n > 2 then "MEDIUM" else "LOW") = "LOW"
      ↔ min n 10 ≤ 2)
  ∧ ((decide (n > 0) = true) ↔ 0 < min n 10) := by
  split_ifs with h1 h2 <;>
    refine ⟨?_, ?_, ?_, ?_⟩ <;> simp <;> omega

/-- C3: the urgency score reported by `extract_urgency` is at most 10 (it
is a natural number, hence in [0,10]); the level is HIGH iff the score
exceeds 5, MEDIUM iff it is in (2,5], LOW iff it is at most 2 (including
0); and has_urgency holds iff the score is positive. -/
theorem extract_urgency_spec (ec : String) :
    (extract_urgency ec).urgency_score ≤ 10
  ∧ ((extract_urgency ec).urgency_level = "HIGH"
      ↔ 5 < (extract_urgency ec).urgency_score)
  ∧ ((extract_urgency ec).urgency_level = "MEDIUM"
      ↔ (2 < (extract_urgency ec).urgency_score
          ∧ (extract_urgency ec).urgency_score ≤ 5))
  ∧ ((extract_urgency ec).urgency_level = "LOW"
      ↔ (extract_urgency ec).urgency_score ≤ 2)
  ∧ ((extract_urgency ec).has_urgency = true
      ↔ 0 < (extract_urgency ec).urgency_score) := by
  unfold extract_urgency
  obtain ⟨h1, h2, h3, h4⟩ := urgency_fields_iff (rawUrgencyScore (lowerStr ec))
  exact ⟨Nat.min_le_right _ _, h1, h2, h3, h4⟩

/-- Helper for C4: the confidence fold adds exactly 0.15 per matching
strong indicator. -/
theorem confidence_foldl (content : String) (l : List String) (acc : ℚ) :
    l.foldl (fun a ind => if containsSub content ind then a + 0.15 else a) acc
      = acc + 0.15 * (l.countP (fun ind => containsSub content ind) : ℚ) := by
  induction l generalizing acc with
  | nil => simp
  | cons k t ih =>
    simp only [List.foldl_cons, List.countP_cons]
    by_cases h : containsSub content k
    · rw [ih]
      simp only [h, if_true, if_pos]
      push_cast
      ring
    · rw [ih]
      simp [h]

/-- Helper for C4: bounds of `calculate_confidence`, via the closed form. -/
theorem calculate_confidence_bounds (content category : String) :
    calculate_confidence content category
      = min (0.7 + 0.15 *
          ((strongIndicators category).countP
            (fun ind => containsSub content ind) : ℚ)) 0.95
  ∧ (0.7 : ℚ) ≤ calculate_confidence content category
  ∧ calculate_confidence content category ≤ 0.95 := by
  unfold calculate_confidence
  dsimp only
  rw [confidence_foldl]
  refine ⟨rfl, le_min ?_ (by norm_num), min_le_right _ _⟩
  have : (0 : ℚ) ≤ 0.15 * ((strongIndicators category).countP
      (fun ind => containsSub content ind) : ℚ) := by positivity
  linarith

/-- C4: `calculate_confidence` equals base 0.70 plus 0.15 per matching
strong indicator of the chosen category, capped at 0.95, and always lies
in [0.70, 0.95]; consequently the confidence field of every
`classify_email` result lies in [0.70, 0.95]. -/
theorem classify_email_confidence_spec (content category ec sender subj now : String) :
    calculate_confidence content category
      = min (0.7 + 0.15 *
          ((strongIndicators category).countP
            (fun ind => containsSub content ind) : ℚ)) 0.95
  ∧ (0.7 : ℚ) ≤ calculate_confidence content category
  ∧ calculate_confidence content category ≤ 0.95
  ∧ (0.7 : ℚ) ≤ (classify_email ec sender subj now).confidence
  ∧ (classify_email ec sender subj now).confidence ≤ 0.95 := by
  obtain ⟨h1, h2, h3⟩ := calculate_confidence_bounds content category
  obtain ⟨_, h5, h6⟩ := calculate_confidence_bounds
    (lowerStr (ec ++ " " ++ subj))
    (determine_category (lowerStr (ec ++ " " ++ subj)) sender)
  exact ⟨h1, h2, h3, h5, h6⟩

/-- C7: whenever the positive and negative keyword counts of
`analyze_sentiment` are equal — in particular when both are zero — the
sentiment is NEUTRAL and the confidence is exactly 0, which lies in
[0, 1]; the `max 1` denominator makes the division well defined. -/
theorem analyze_sentiment_neutral (ec : String)
    (h : (analyze_sentiment ec).positive_indicators
        = (analyze_sentiment ec).negative_indicators) :
    (analyze_sentiment ec).sentiment = "NEUTRAL"
  ∧ (analyze_sentiment ec).confidence = 0
  ∧ (0 : ℚ) ≤ (analyze_sentiment ec).confidence
  ∧ (analyze_sentiment ec).confidence ≤ 1 := by
  unfold analyze_sentiment at h ⊢
  dsimp only at h ⊢
  rw [h]
  refine ⟨by simp, by simp, by simp, by simp⟩

/-- Witness for C7 at content with zero positive and zero negative hits. -/
theorem analyze_sentiment_neutral_w :
    (analyze_sentiment "hello").positive_indicators
        = (analyze_sentiment "hello").negative_indicators
  ∧ ((analyze_sentiment "hello").sentiment = "NEUTRAL"
      ∧ (analyze_sentiment "hello").confidence = 0
      ∧ (0 : ℚ) ≤ (analyze_sentiment "hello").confidence
      ∧ (analyze_sentiment "hello").confidence ≤ 1) :=
  ⟨by decide, analyze_sentiment_neutral "hello" (by decide)⟩

/-- C9: the four triage functions are deterministic — two invocations
with identical inputs agree on every field except the timestamp, which
for `classify_email` is the explicit clock argument; the other three
functions take no clock at all. -/
theorem triage_deterministic (ec sender subj now1 now2 category tone : String) :
    (classify_email ec sender subj now1).category
        = (classify_email ec sender subj now2).category
  ∧ (classify_email ec sender subj now1).confidence
        = (classify_email ec sender subj now2).confidence
  ∧ (classify_email ec sender subj now1).sender_domain
        = (classify_email ec sender subj now2).sender_domain
  ∧ suggest_response ec category tone = suggest_response ec category tone
  ∧ extract_urgency ec = extract_urgency ec
  ∧ analyze_sentiment ec = analyze_sentiment ec :=
  ⟨rfl, rfl, rfl, rfl, rfl, rfl⟩

/-- C10: keyword matching is substring containment — on the input "baby",
which contains no urgency- or deadline-related standalone word, the
deadline keyword "by" matches inside "baby", so `extract_urgency` reports
score 2 and has_urgency true. -/
theorem extract_urgency_substring_matching :
    (extract_urgency "baby").urgency_score = 2
  ∧ (extract_urgency "baby").has_urgency = true := by
  decide

/-- Helper for C8: a split is never the empty list. -/
theorem splitChar_ne_nil (sep : Char) (l : List Char) : splitChar sep l ≠ [] := by
  cases l with
  | nil => simp [splitChar]
  | cons c rest =>
    simp only [splitChar]
    cases hsp : splitChar sep rest with
    | nil => simp
    | cons p ps => split_ifs <;> simp

/-- Helper for C8: a split has one more part than the separator count. -/
theorem splitChar_length (sep : Char) (l : List Char) :
    (splitChar sep l).length = l.count sep + 1 := by
  induction l with
  | nil => simp [splitChar]
  | cons c rest ih =>
    simp only [splitChar]
    cases hsp : splitChar sep rest with
    | nil => exact absurd hsp (splitChar_ne_nil sep rest)
    | cons p ps =>
      rw [hsp] at ih
      by_cases hc : c = sep
      · subst hc
        simp only [List.count_cons, List.length_cons] at ih ⊢
        simp at ih ⊢
        omega
      · simp only [List.count_cons] at ih ⊢
        simp [hc] at ih ⊢
        omega

/-- Helper for C8: splitting a list that ends in the separator yields an
empty last part — Python `s.split(sep)[-1]` is the empty string when `s`
ends in `sep`. -/
theorem splitChar_append_sep (sep : Char) (xs : List Char) :
    (splitChar sep (xs ++ [sep])).getLastD [] = [] := by
  induction xs with
  | nil => simp [splitChar]
  | cons c rest ih =>
    simp only [List.cons_append, splitChar]
    cases hsp : splitChar sep (rest ++ [sep]) with
    | nil => exact absurd hsp (splitChar_ne_nil _ _)
    | cons p ps =>
      have hlen : (p :: ps).length = (rest ++ [sep]).count sep + 1 := by
        rw [← hsp]; exact splitChar_length _ _
      have hsep : 0 < (rest ++ [sep]).count sep := by
        refine List.count_pos_iff.mpr ?_
        simp
      have hps : ps ≠ [] := by
        rcases ps with _ | ⟨q, qs⟩
        · simp at hlen
        · simp
      rw [hsp] at ih
      split_ifs with hc
      · simpa [List.getLastD_cons] using ih
      · rw [List.getLastD_cons] at ih ⊢
        rcases ps with _ | ⟨q, qs⟩
        · exact absurd rfl hps
        · simpa [List.getLastD_cons] using ih

/-- C8 counterexample: for the sender "a@" (an '@' with no domain after
it) the sender_domain computed by `classify_email` is the empty string,
not the sentinel "unknown" — refuting the claim that every no-domain case
yields "unknown". -/
theorem classify_email_sender_domain_cex :
    (classify_email "" "a@" "" "t0").sender_domain = ""
  ∧ (classify_email "" "a@" "" "t0").sender_domain ≠ "unknown" := by
  decide

/-- C8 amended: `classify_email` computes sender_domain totally (the
embedding is a total function, so no exception is possible); when the
sender contains no '@' the result is the sentinel "unknown"; but when the
sender ends in '@' (so no domain follows the last '@') the result is the
empty string, not "unknown". -/
theorem classify_email_sender_domain_amended (ec subj now sender : String) :
    (sender.data.contains '@' = false →
      (classify_email ec sender subj now).sender_domain = "unknown")
  ∧ (∀ xs : List Char, sender.data = xs ++ ['@'] →
      (classify_email ec sender subj now).sender_domain = "") := by
  constructor
  · intro h
    show (if sender.data.contains '@' then _ else _) = _
    rw [h]
    simp
  · intro xs hxs
    show (if sender.data.contains '@' then _ else _) = _
    rw [hxs]
    have hc : (xs ++ ['@']).contains '@' = true := by simp
    rw [hc]
    simp only [if_true]
    rw [splitChar_append_sep]

/-- Witness for C8 amended, at the no-'@' sender "nodomain" and the
trailing-'@' sender "a@". -/
theorem classify_email_sender_domain_amended_w :
    (String.data "nodomain").contains '@' = false
  ∧ (classify_email "" "nodomain" "" "t0").sender_domain = "unknown"
  ∧ String.data "a@" = ['a'] ++ ['@']
  ∧ (classify_email "" "a@" "" "t0").sender_domain = "" :=
  ⟨by decide,
   (classify_email_sender_domain_amended "" "" "t0" "nodomain").1 (by decide),
   by decide,
   (classify_email_sender_domain_amended "" "" "t0" "a@").2 ['a'] (by decide)⟩

/-- C5: for every registered tool and every parameter mapping that fails
Python keyword binding (a missing required key or an unexpected key), the
`POST /tools/{tool_name}` endpoint returns the HTTPException(500) error
response — a failure result surfaced to the caller, never an unhandled
exception (`call_tool` is total). -/
theorem call_tool_bad_params (t : String) (params : List (String × String))
    (now : String)
    (ht : registryNames.contains t = true)
    (hb : bindOk (requiredParams t) (optionalParams t) params = false) :
    call_tool t params now
      = .failure 500 ("TypeError: bad arguments for " ++ t) := by
  unfold call_tool handle_request
  rw [ht, hb]
  simp

/-- Witness for C5: calling classify_email with a single unexpected key. -/
theorem call_tool_bad_params_w :
    registryNames.contains "classify_email" = true
  ∧ bindOk (requiredParams "classify_email") (optionalParams "classify_email")
      [("bogus", "x")] = false
  ∧ call_tool "classify_email" [("bogus", "x")] "t0"
      = .failure 500 ("TypeError: bad arguments for " ++ "classify_email") :=
  ⟨by decide, by decide,
   call_tool_bad_params "classify_email" [("bogus", "x")] "t0"
     (by decide) (by decide)⟩

/-- C6: for every tool name not in the registry (which holds exactly
classify_email, suggest_response, extract_urgency, analyze_sentiment),
`handle_request` returns the structured tool-not-found error dict as a
normal value (`Except.ok`), so no exception is raised. -/
theorem handle_request_unknown_tool (t : String)
    (params : List (String × String)) (now : String)
    (ht : registryNames.contains t = false) :
    handle_request t params now
      = .ok (.errorVal ("Tool " ++ t ++ " not found")) := by
  unfold handle_request
  rw [ht]
  simp

/-- Witness for C6 at the unregistered name "nonexistent". -/
theorem handle_request_unknown_tool_w :
    registryNames.contains "nonexistent" = false
  ∧ handle_request "nonexistent" [] "t0"
      = .ok (.errorVal ("Tool " ++ "nonexistent" ++ " not found")) :=
  ⟨by decide, handle_request_unknown_tool "nonexistent" [] "t0" (by decide)⟩
